import Mathlib

/-!
Shallow embedding of the authentication and adaptive abuse-control subsystem
of the Eco-product application.

Sources embedded:
- backend middleware rateLimit (IP sliding-window counter, account lockout,
  email rate limit, durable login-attempt ledger),
- backend middleware auth (token extraction, optionalAuth, requireAuth),
- backend routes auth (login pipeline, TOTP challenge creation and
  verification).

Time is modelled as milliseconds since epoch (a natural number).  External
primitives (bcrypt comparison, TOTP code verification, HMAC signing, token
wire decoding) are taken as function parameters, since the source calls out
to libraries for them.
-/

namespace EcoAuth

/-! ### Rate-limit configuration constants (middleware rateLimit) -/

def IP_MAX_ATTEMPTS : Nat := 5
def IP_WINDOW_MS : Nat := 60 * 1000
def EMAIL_MAX_ATTEMPTS : Nat := 10
def EMAIL_WINDOW_MS : Nat := 60 * 60 * 1000
def LOCKOUT_THRESHOLD : Nat := 10
def LOCKOUT_DURATION_MS : Nat := 15 * 60 * 1000

/-! ### Data model -/

/-- One bucket of the in-memory IP sliding-window counter:
`{ count, firstAttempt }`. -/
structure IpData where
  count : Nat
  firstAttempt : Nat
deriving Repr, DecidableEq

/-- The in-memory `loginAttempts` map, keyed by strings of the form
`ip:<address>`. -/
def IpMap : Type := String → Option IpData

/-- The map key used for an IP address. -/
def ipKey (ip : String) : String := "ip:" ++ ip

/-- A row of the `user` table (fields relevant to authentication). -/
structure User where
  id : String
  email : String
  name : String
  passwordHash : String
  totpEnabled : Bool
  totpSecret : Option String
  lockedUntil : Option Nat
  lastLoginAt : Option Nat
deriving Repr, DecidableEq

/-- A row of the durable `loginAttempt` ledger. -/
structure AttemptRow where
  email : String
  ip : String
  userAgent : Option String
  success : Bool
  userId : Option String
  createdAt : Nat
deriving Repr, DecidableEq

/-- A row of the `loginChallenge` table. -/
structure LoginChallenge where
  id : String
  userId : String
  expiresAt : Nat
  usedAt : Option Nat
deriving Repr, DecidableEq

/-- The combined mutable state the login subsystem reads and writes:
the in-memory IP counter plus the three persistent tables. -/
structure AuthState where
  loginAttempts : IpMap
  users : List User
  ledger : List AttemptRow
  challenges : List LoginChallenge

/-! ### IP guard (middleware rateLimit) -/

/-- Result shape of `checkIpRateLimit`: `{ allowed, remainingSeconds? }`. -/
structure IpCheckResult where
  allowed : Bool
  remainingSeconds : Option Nat
deriving Repr, DecidableEq

/-- `checkIpRateLimit(ip)` from the rate-limit middleware. -/
def checkIpRateLimit (m : IpMap) (now : Nat) (ip : String) : IpCheckResult :=
  match m (ipKey ip) with
  | none => ⟨true, none⟩
  | some data =>
    if now - data.firstAttempt > IP_WINDOW_MS then ⟨true, none⟩
    else if data.count ≥ IP_MAX_ATTEMPTS then
      let remainingMs := IP_WINDOW_MS - (now - data.firstAttempt)
      ⟨false, some ((remainingMs + 999) / 1000)⟩
    else ⟨true, none⟩

/-- `recordIpAttempt(ip)`: start a fresh window at `now`, or increment the
count of the live window. -/
def recordIpAttempt (m : IpMap) (now : Nat) (ip : String) : IpMap :=
  fun k =>
    if k = ipKey ip then
      match m (ipKey ip) with
      | none => some ⟨1, now⟩
      | some data =>
        if now - data.firstAttempt > IP_WINDOW_MS then some ⟨1, now⟩
        else some ⟨data.count + 1, data.firstAttempt⟩
    else m k

/-- `clearIpAttempts(ip)`: delete only the bucket of this IP. -/
def clearIpAttempts (m : IpMap) (ip : String) : IpMap :=
  fun k => if k = ipKey ip then none else m k

/-! ### Account lockout and email guard (middleware rateLimit) -/

/-- `prisma.user.findUnique({ where: { email } })`. -/
def findUserByEmail (users : List User) (email : String) : Option User :=
  users.find? (fun u => u.email == email)

/-- `prisma.user.findUnique({ where: { id } })` (via the challenge relation). -/
def findUserById (users : List User) (id : String) : Option User :=
  users.find? (fun u => u.id == id)

/-- Result shape of `checkAccountLockout`. -/
structure LockoutCheck where
  locked : Bool
  remainingMinutes : Option Nat
deriving Repr, DecidableEq

/-- `checkAccountLockout(email)`: locked iff `lockedUntil` is set and in the
future; remaining minutes are rounded up from the remaining milliseconds. -/
def checkAccountLockout (users : List User) (now : Nat) (email : String) :
    LockoutCheck :=
  match findUserByEmail users email with
  | none => ⟨false, none⟩
  | some u =>
    match u.lockedUntil with
    | some t =>
      if t > now then ⟨true, some ((t - now + 59999) / 60000)⟩
      else ⟨false, none⟩
    | none => ⟨false, none⟩

/-- `prisma.loginAttempt.count({ where: { email, success: false,
createdAt: { gte: windowStart } } })`. -/
def countRecentFailures (rows : List AttemptRow) (email : String)
    (windowStart : Nat) : Nat :=
  (rows.filter (fun r =>
    r.email == email && r.success == false && decide (windowStart ≤ r.createdAt))).length

/-- `checkEmailRateLimit(email)`: `true` means allowed. -/
def checkEmailRateLimit (rows : List AttemptRow) (now : Nat) (email : String) :
    Bool :=
  decide (countRecentFailures rows email (now - EMAIL_WINDOW_MS) < EMAIL_MAX_ATTEMPTS)

/-- `prisma.user.updateMany({ where: { email }, data: { lockedUntil } })`. -/
def setLockoutByEmail (users : List User) (email : String) (t : Option Nat) :
    List User :=
  users.map (fun u => if u.email = email then { u with lockedUntil := t } else u)

/-- `prisma.user.updateMany({ where: { email, lockedUntil: { not: null } },
data: { lockedUntil: null } })`. -/
def clearLockoutByEmail (users : List User) (email : String) : List User :=
  users.map (fun u =>
    if u.email = email ∧ u.lockedUntil ≠ none then { u with lockedUntil := none }
    else u)

/-- `prisma.user.update({ where: { id }, data: { lastLoginAt } })`. -/
def updateLastLogin (users : List User) (id : String) (t : Nat) : List User :=
  users.map (fun u => if u.id = id then { u with lastLoginAt := some t } else u)

/-- Result of `recordLoginAttempt`: the `accountLocked` flag together with the
updated user table and ledger. -/
structure RecordResult where
  accountLocked : Bool
  users : List User
  ledger : List AttemptRow
deriving Repr, DecidableEq

/-- `recordLoginAttempt(email, ip, userAgent, success, userId?)`: append the
attempt to the ledger; on failure re-count failures in the rolling window
(including the new row) and set the lockout when the threshold is reached;
on success clear any lockout for the email. -/
def recordLoginAttempt (now : Nat) (users : List User) (rows : List AttemptRow)
    (email ip : String) (userAgent : Option String) (success : Bool)
    (userId : Option String) : RecordResult :=
  let rows' := rows ++ [⟨email, ip, userAgent, success, userId, now⟩]
  if success then
    ⟨false, clearLockoutByEmail users email, rows'⟩
  else
    let failedCount := countRecentFailures rows' email (now - EMAIL_WINDOW_MS)
    if failedCount ≥ LOCKOUT_THRESHOLD then
      ⟨true, setLockoutByEmail users email (some (now + LOCKOUT_DURATION_MS)), rows'⟩
    else
      ⟨false, users, rows'⟩

/-! ### The login route (routes auth, POST /login) -/

/-- Outcome of a `POST /login` request, one constructor per response shape of
the route handler. -/
inductive LoginResult
  /-- 429, code IP_RATE_LIMIT, with retryAfter seconds. -/
  | ipRateLimit (retryAfter : Nat)
  /-- 423, code ACCOUNT_LOCKED, with retryAfter seconds. -/
  | accountLocked (retryAfter : Nat)
  /-- 429, code EMAIL_RATE_LIMIT. -/
  | emailRateLimit
  /-- 401, generic invalid-credentials. -/
  | invalidCredentials
  /-- 200, session cookie set, totpRequired false. -/
  | success (userId : String)
  /-- 200, totpRequired true, challenge id and expiry; no cookie. -/
  | totpRequired (challengeId : String) (expiresAt : Nat) (userId : String)
deriving Repr, DecidableEq

/-- HTTP status of each login response. -/
def LoginResult.status : LoginResult → Nat
  | .ipRateLimit _ => 429
  | .accountLocked _ => 423
  | .emailRateLimit => 429
  | .invalidCredentials => 401
  | .success _ => 200
  | .totpRequired _ _ _ => 200

/-- Whether the route sets the session cookie (calls `setAuthCookie`) for this
response. -/
def LoginResult.setsSessionCookie : LoginResult → Bool
  | .success _ => true
  | _ => false

/-- Strip leading and trailing whitespace from a character list (the
character-level reading of a string `trim`). -/
def trimChars (l : List Char) : List Char :=
  ((l.dropWhile Char.isWhitespace).reverse.dropWhile Char.isWhitespace).reverse

/-- `body.email.toLowerCase().trim()`: lower-case every character, then strip
leading and trailing whitespace (spelled out over the character list). -/
def normEmail (e : String) : String :=
  String.mk (trimChars (e.data.map Char.toLower))

/-- `POST /login`.  `verify p h` embeds `bcrypt.compare(p, h)`;
`freshChallengeId` is the id the database would mint for a newly created
challenge row.  The handler, in source order: normalize the email, run the
IP guard, the lockout guard and the email guard, look the user up, compare
the password, then either record the failure (possibly locking the account),
or clear the IP bucket and either issue a session (TOTP off) or create a
2-minute login challenge (TOTP on). -/
def login (verify : String → String → Bool) (now : Nat)
    (freshChallengeId : String) (st : AuthState) (emailInput password ip : String)
    (userAgent : Option String) : LoginResult × AuthState :=
  let email := normEmail emailInput
  let ipCheck := checkIpRateLimit st.loginAttempts now ip
  if ipCheck.allowed = false then
    (.ipRateLimit (ipCheck.remainingSeconds.getD 0), st)
  else
    let lockoutCheck := checkAccountLockout st.users now email
    if lockoutCheck.locked then
      (.accountLocked ((lockoutCheck.remainingMinutes.getD 0) * 60), st)
    else if checkEmailRateLimit st.ledger now email = false then
      (.emailRateLimit, st)
    else
      match findUserByEmail st.users email with
      | none =>
        let m' := recordIpAttempt st.loginAttempts now ip
        let r := recordLoginAttempt now st.users st.ledger email ip userAgent false none
        (.invalidCredentials,
         { st with loginAttempts := m', users := r.users, ledger := r.ledger })
      | some user =>
        if verify password user.passwordHash = false then
          let m' := recordIpAttempt st.loginAttempts now ip
          let r := recordLoginAttempt now st.users st.ledger email ip userAgent false
            (some user.id)
          let st' : AuthState :=
            { st with loginAttempts := m', users := r.users, ledger := r.ledger }
          if r.accountLocked then
            (.accountLocked (LOCKOUT_DURATION_MS / 1000), st')
          else
            (.invalidCredentials, st')
        else
          let m' := clearIpAttempts st.loginAttempts ip
          if !user.totpEnabled || user.totpSecret.isNone then
            let r := recordLoginAttempt now st.users st.ledger email ip userAgent true
              (some user.id)
            let users' := updateLastLogin r.users user.id now
            (.success user.id,
             { st with loginAttempts := m', users := users', ledger := r.ledger })
          else
            let challenges' := st.challenges.filter (fun c =>
              !(c.userId == user.id && (decide (c.expiresAt < now) || !c.usedAt.isNone)))
            let expiresAt := now + 2 * 60 * 1000
            let ch : LoginChallenge := ⟨freshChallengeId, user.id, expiresAt, none⟩
            (.totpRequired freshChallengeId expiresAt user.id,
             { st with loginAttempts := m', challenges := challenges' ++ [ch] })

/-! ### The TOTP verification route (routes auth, POST /login/totp) -/

/-- Outcome of a `POST /login/totp` request. -/
inductive TotpResult
  /-- 404: no challenge row with this id. -/
  | challengeNotFound
  /-- 410: `usedAt` already set. -/
  | challengeAlreadyUsed
  /-- 410: `expiresAt <= now`. -/
  | challengeExpired
  /-- 403: account has TOTP disabled or no secret. -/
  | totpNotConfigured
  /-- 401, code INVALID_TOTP. -/
  | invalidTotp
  /-- 200, session cookie set. -/
  | success (userId : String)
deriving Repr, DecidableEq

/-- What the handler decided after its read phase (every database read and
the TOTP code check), before any write. -/
inductive TotpReadOutcome
  /-- Respond immediately, leaving all state untouched. -/
  | reject (r : TotpResult)
  /-- Code wrong: record the failure for this user, respond invalidTotp. -/
  | invalidCode (u : User)
  /-- Code correct for this unconsumed, unexpired challenge: proceed to
  consume it and issue a session. -/
  | proceed (ch : LoginChallenge) (u : User)

/-- The read phase of the handler: find the challenge, check `usedAt`, check
expiry, load the user through the relation, check TOTP configuration, and
verify the code (`totpCheck code secret` embeds `authenticator.verify`). -/
def totpReadPhase (totpCheck : String → String → Bool) (now : Nat)
    (st : AuthState) (challengeId code : String) : TotpReadOutcome :=
  match st.challenges.find? (fun c => c.id == challengeId) with
  | none => .reject .challengeNotFound
  | some ch =>
    if !ch.usedAt.isNone then .reject .challengeAlreadyUsed
    else if ch.expiresAt ≤ now then .reject .challengeExpired
    else
      match findUserById st.users ch.userId with
      | none => .reject .totpNotConfigured
      | some u =>
        if !u.totpEnabled || u.totpSecret.isNone then .reject .totpNotConfigured
        else if totpCheck code (u.totpSecret.getD "") = false then .invalidCode u
        else .proceed ch u

/-- The write phase of a successful verification: mark the challenge used
with an unconditional `update({ where: { id } })`, append the success to the
ledger (clearing any lockout), bump `lastLoginAt`, clear the caller's IP
bucket, issue the session. -/
def totpConsume (now : Nat) (st : AuthState) (ch : LoginChallenge) (u : User)
    (ip : String) (userAgent : Option String) : TotpResult × AuthState :=
  let challenges' := st.challenges.map (fun c =>
    if c.id = ch.id then { c with usedAt := some now } else c)
  let r := recordLoginAttempt now st.users st.ledger u.email ip userAgent true (some u.id)
  let users' := updateLastLogin r.users u.id now
  let m' := clearIpAttempts st.loginAttempts ip
  (.success u.id,
   { loginAttempts := m', users := users', ledger := r.ledger, challenges := challenges' })

/-- Apply a read-phase outcome to a state: the writes the handler performs
after its reads. -/
def totpApply (now : Nat) (st : AuthState) (o : TotpReadOutcome) (ip : String)
    (userAgent : Option String) : TotpResult × AuthState :=
  match o with
  | .reject r => (r, st)
  | .invalidCode u =>
    let m' := recordIpAttempt st.loginAttempts now ip
    let r := recordLoginAttempt now st.users st.ledger u.email ip userAgent false (some u.id)
    (.invalidTotp,
     { st with loginAttempts := m', users := r.users, ledger := r.ledger })
  | .proceed ch u => totpConsume now st ch u ip userAgent

/-- `POST /login/totp`, as executed by one uninterrupted request: the read
phase followed immediately by the writes it decided on. -/
def verifyTotp (totpCheck : String → String → Bool) (now : Nat) (st : AuthState)
    (challengeId code ip : String) (userAgent : Option String) :
    TotpResult × AuthState :=
  totpApply now st (totpReadPhase totpCheck now st challengeId code) ip userAgent

/-- Two concurrent `POST /login/totp` requests for the same challenge id,
interleaved so that both read phases run against the initial state before
either write phase runs (the interleaving the handler does not guard
against, since the consuming update is not conditional on `usedAt`). -/
def verifyTotpRace (totpCheck : String → String → Bool) (now : Nat)
    (st : AuthState) (challengeId code ipA ipB : String)
    (uaA uaB : Option String) : TotpResult × TotpResult × AuthState :=
  let oA := totpReadPhase totpCheck now st challengeId code
  let oB := totpReadPhase totpCheck now st challengeId code
  let (rA, st1) := totpApply now st oA ipA uaA
  let (rB, st2) := totpApply now st1 oB ipB uaB
  (rA, rB, st2)

/-! ### The Auth Gate (middleware auth) -/

/-- The parts of an HTTP request the gate reads. -/
structure HttpRequest where
  authorizationHeader : Option String
  cookieHeader : Option String
deriving Repr, DecidableEq

/-- Split a character list at every occurrence of the separator (the
character-level reading of a string `split`). -/
def splitOnChar (sep : Char) : List Char → List (List Char)
  | [] => [[]]
  | x :: xs =>
    let r := splitOnChar sep xs
    if x = sep then [] :: r
    else
      match r with
      | [] => [[x]]
      | h :: t => (x :: h) :: t

/-- Join character lists with the separator between them (the
character-level reading of `Array.join`). -/
def joinWithChar (sep : Char) : List (List Char) → List Char
  | [] => []
  | [x] => x
  | x :: xs => x ++ sep :: joinWithChar sep xs

/-- Whether `p` is an initial segment of `s` (the reading of
`String.startsWith`). -/
def strStartsWith (s p : String) : Bool :=
  s.data.take p.data.length == p.data

/-- Drop the first `n` characters of `s` (the reading of `slice(n)`). -/
def strDrop (s : String) (n : Nat) : String := String.mk (s.data.drop n)

/-- `getCookieValue(cookieHeader, name)`: split on `;`, trim each part, split
on `=`, return the first value whose key matches; a key with no `=` yields
the empty value.  (The source additionally tries `decodeURIComponent` and
falls back to the raw value on failure; percent-decoding is outside the
model.) -/
def getCookieValue (cookieHeader : Option String) (name : String) :
    Option String :=
  match cookieHeader with
  | none => none
  | some h =>
    ((splitOnChar (';') h.data).filterMap (fun part =>
      match splitOnChar ('=') (trimChars part) with
      | [] => none
      | k :: rest =>
        if String.mk k = name then some (String.mk (joinWithChar ('=') rest))
        else none)).head?

/-- `getTokenFromRequest(req)`: a `Bearer `-prefixed authorization header
wins (its first 7 characters — the length of `Bearer ` — are stripped);
otherwise the `eco_token` cookie. -/
def getTokenFromRequest (req : HttpRequest) : Option String :=
  match req.authorizationHeader with
  | some h =>
    if strStartsWith h ("Bearer ") then some (strDrop h 7)
    else getCookieValue req.cookieHeader ("eco_token")
  | none => getCookieValue req.cookieHeader ("eco_token")

/-- The claims a decoded token carries: the optional subject. -/
structure JwtPayload where
  sub : Option String
deriving Repr, DecidableEq

/-- The content of a signed token: subject, expiry, signature. -/
structure SignedToken where
  sub : Option String
  expiresAt : Nat
  sig : String
deriving Repr, DecidableEq

/-- `jwt.verify(token, JWT_SECRET)` modelled over an abstract wire decoding
`decodeTok` and an abstract keyed MAC `macOf` (the server's HMAC under its
secret): the token must decode, its signature must match, and it must be
unexpired; otherwise verification throws, modelled as `none`. -/
def jwtVerify (macOf : Option String → Nat → String)
    (decodeTok : String → Option SignedToken) (now : Nat) (token : String) :
    Option JwtPayload :=
  match decodeTok token with
  | none => none
  | some t =>
    if t.sig = macOf t.sub t.expiresAt ∧ now < t.expiresAt then some ⟨t.sub⟩
    else none

/-- What an auth middleware does with the request. -/
inductive GateOutcome
  /-- 401, request does not proceed. -/
  | unauthorized
  /-- Request proceeds, carrying the resolved identity (if any). -/
  | proceed (user : Option String)
deriving Repr, DecidableEq

/-- `optionalAuth`: always proceeds; attaches an identity only when a token
is present, verifies, and carries a subject. -/
def optionalAuth (jv : String → Option JwtPayload) (req : HttpRequest) :
    GateOutcome :=
  match getTokenFromRequest req with
  | none => .proceed none
  | some tok =>
    match jv tok with
    | none => .proceed none
    | some payload => .proceed payload.sub

/-- `requireAuth`: 401 when the token is absent, fails verification, or has
no subject; otherwise proceeds with the subject as identity. -/
def requireAuth (jv : String → Option JwtPayload) (req : HttpRequest) :
    GateOutcome :=
  match getTokenFromRequest req with
  | none => .unauthorized
  | some tok =>
    match jv tok with
    | none => .unauthorized
    | some payload =>
      match payload.sub with
      | none => .unauthorized
      | some uid => .proceed (some uid)

/-! ### Concrete instances used to exhibit behaviour on closed inputs -/

/-- A concrete stand-in for `bcrypt.compare` / `authenticator.verify`:
the supplied value matches exactly the stored one. -/
def eqCheck : String → String → Bool := fun a b => a == b

/-- The empty in-memory IP map. -/
def emptyIp : IpMap := fun _ => none

/-- An IP map whose bucket for `9.9.9.9` holds 5 failures starting at
t = 1000000. -/
def fullBucketIp : IpMap :=
  fun k => if k = ipKey ("9.9.9.9") then some ⟨5, 1000000⟩ else none

/-- A TOTP-less user. -/
def alice : User :=
  { id := "u1", email := "a@x.com", name := "Alice", passwordHash := "H1",
    totpEnabled := false, totpSecret := none, lockedUntil := none,
    lastLoginAt := none }

/-- The same account with TOTP enabled. -/
def aliceTotp : User :=
  { alice with totpEnabled := true, totpSecret := some "S1" }

/-- The TOTP account while locked out until t = 2000000. -/
def aliceTotpLocked : User :=
  { aliceTotp with lockedUntil := some 2000000 }

/-- One failed-attempt ledger row for an email at a given time. -/
def failRow (email : String) (t : Nat) : AttemptRow :=
  { email := email, ip := "1.1.1.1", userAgent := none, success := false,
    userId := none, createdAt := t }

/-- Nine failed rows for each of `a@x.com` (an existing account) and
`b@x.com` (no such account), all inside the current 1-hour window. -/
def nineAndNineRows : List AttemptRow :=
  ((List.range 9).map (fun i => failRow ("a@x.com") (990000 + i))) ++
    ((List.range 9).map (fun i => failRow ("b@x.com") (990000 + i)))

/-- Baseline state: just the TOTP-less account. -/
def stPlain : AuthState :=
  { loginAttempts := emptyIp, users := [alice], ledger := [], challenges := [] }

/-- State whose IP bucket for `9.9.9.9` is full. -/
def stIpBlocked : AuthState := { stPlain with loginAttempts := fullBucketIp }

/-- State with nine recent failures for each of the two emails. -/
def stNineFailures : AuthState := { stPlain with ledger := nineAndNineRows }

/-- State with a locked TOTP-less account. -/
def stLocked : AuthState :=
  { stPlain with users := [{ alice with lockedUntil := some 2000000 }] }

/-- An unconsumed challenge for the TOTP account, expiring at t = 1120000. -/
def chal : LoginChallenge :=
  { id := "c1", userId := "u1", expiresAt := 1120000, usedAt := none }

/-- State holding the TOTP account and its pending challenge. -/
def stChal : AuthState :=
  { loginAttempts := emptyIp, users := [aliceTotp], ledger := [],
    challenges := [chal] }

/-- The same pending challenge while the account is locked out and the
caller's IP bucket is full. -/
def stChalGuarded : AuthState :=
  { stChal with users := [aliceTotpLocked], loginAttempts := fullBucketIp }

/-- The state after the first successful verification of `chal`. -/
def stChalUsed : AuthState :=
  (verifyTotp eqCheck 1050000 stChal ("c1") ("S1") ("9.9.9.9") none).2

/-- Baseline state with the TOTP-enabled account and no pending challenge. -/
def stTotp : AuthState := { stPlain with users := [aliceTotp] }

/-- An IP map holding live buckets for two distinct IPs, neither full. -/
def twoBucketIp : IpMap :=
  fun k =>
    if k = ipKey ("9.9.9.9") then some ⟨3, 999000⟩
    else if k = ipKey ("7.7.7.7") then some ⟨2, 999500⟩
    else none

/-- State whose account carries an already-expired lockout stamp and whose
IP map holds the two buckets: a successful login should clear exactly the
lockout and the caller's bucket. -/
def stExpiredLock : AuthState :=
  { stPlain with
    users := [{ alice with lockedUntil := some 500 }],
    loginAttempts := twoBucketIp }

/-- A concrete keyed MAC standing in for the server's HMAC. -/
def macOfC : Option String → Nat → String := fun _ _ => "SIG"

/-- A concrete wire decoding: only the literal `goodtok` decodes, to a token
for user u1 expiring at t = 2000000 and carrying the matching signature. -/
def decodeTokC : String → Option SignedToken :=
  fun s => if s = "goodtok" then some ⟨some ("u1"), 2000000, "SIG"⟩ else none

/-- A request carrying both a bearer authorization header and a cookie. -/
def reqBoth : HttpRequest :=
  { authorizationHeader := some ("Bearer goodtok"),
    cookieHeader := some ("a=1; eco_token=cookietok") }

/-- A request carrying neither header nor cookie. -/
def reqBare : HttpRequest := { authorizationHeader := none, cookieHeader := none }

/-! ## Claims -/

/-- C1: every login request evaluates the IP guard, then the account-lockout
guard, then the email guard, in that fixed order; each rejects with its own
code and status (IP_RATE_LIMIT 429, ACCOUNT_LOCKED 423, EMAIL_RATE_LIMIT 429)
leaving the state untouched and without evaluating the later guards, and the
stored password hash is compared only after all three guards have passed
(whenever any guard trips, the outcome does not depend on the password or on
the comparison function at all). -/
theorem login_guards_fixed_order
    (st : AuthState) (now : Nat) (fid emailInput password ip : String)
    (ua : Option String) (verify : String → String → Bool) :
    ((checkIpRateLimit st.loginAttempts now ip).allowed = false →
      login verify now fid st emailInput password ip ua =
        (.ipRateLimit ((checkIpRateLimit st.loginAttempts now ip).remainingSeconds.getD 0),
          st) ∧
      (login verify now fid st emailInput password ip ua).1.status = 429) ∧
    ((checkIpRateLimit st.loginAttempts now ip).allowed = true →
      (checkAccountLockout st.users now (normEmail emailInput)).locked = true →
      login verify now fid st emailInput password ip ua =
        (.accountLocked
          (((checkAccountLockout st.users now (normEmail emailInput)).remainingMinutes.getD 0)
            * 60), st) ∧
      (login verify now fid st emailInput password ip ua).1.status = 423) ∧
    ((checkIpRateLimit st.loginAttempts now ip).allowed = true →
      (checkAccountLockout st.users now (normEmail emailInput)).locked = false →
      checkEmailRateLimit st.ledger now (normEmail emailInput) = false →
      login verify now fid st emailInput password ip ua = (.emailRateLimit, st) ∧
      (login verify now fid st emailInput password ip ua).1.status = 429) ∧
    (((checkIpRateLimit st.loginAttempts now ip).allowed = false ∨
      (checkAccountLockout st.users now (normEmail emailInput)).locked = true ∨
      checkEmailRateLimit st.ledger now (normEmail emailInput) = false) →
      ∀ verify2 password2,
        login verify now fid st emailInput password ip ua =
          login verify2 now fid st emailInput password2 ip ua) := by
  refine ⟨fun h1 => ?_, fun h1 h2 => ?_, fun h1 h2 h3 => ?_, fun h => ?_⟩
  · have e : login verify now fid st emailInput password ip ua =
        (.ipRateLimit ((checkIpRateLimit st.loginAttempts now ip).remainingSeconds.getD 0),
          st) := by
      simp [login, h1]
    exact ⟨e, by rw [e]; rfl⟩
  · have e : login verify now fid st emailInput password ip ua =
        (.accountLocked
          (((checkAccountLockout st.users now (normEmail emailInput)).remainingMinutes.getD 0)
            * 60), st) := by
      simp [login, h1, h2]
    exact ⟨e, by rw [e]; rfl⟩
  · have e : login verify now fid st emailInput password ip ua = (.emailRateLimit, st) := by
      simp [login, h1, h2, h3]
    exact ⟨e, by rw [e]; rfl⟩
  · intro verify2 password2
    rcases h with h | h | h
    · simp [login, h]
    · cases hip : (checkIpRateLimit st.loginAttempts now ip).allowed
      · simp [login, hip]
      · simp [login, hip, h]
    · cases hip : (checkIpRateLimit st.loginAttempts now ip).allowed
      · simp [login, hip]
      · cases hlo : (checkAccountLockout st.users now (normEmail emailInput)).locked
        · simp [login, hip, hlo, h]
        · simp [login, hip, hlo]

/-- Witness for C1: with the bucket for 9.9.9.9 full at t = 1030000, the IP
guard rejects with 30 seconds remaining and the state is untouched. -/
theorem login_guards_fixed_order_witness :
    login eqCheck 1030000 ("cid") stIpBlocked ("a@x.com") ("H1") ("9.9.9.9") none =
      (.ipRateLimit 30, stIpBlocked) := by
  have h := (login_guards_fixed_order stIpBlocked 1030000 ("cid") ("a@x.com") ("H1")
    ("9.9.9.9") none eqCheck).1 (by decide)
  exact h.1

/-- `recordIpAttempt` on an absent bucket starts a fresh one. -/
lemma recordIpAttempt_same_none {m : IpMap} {ip : String} (t : Nat)
    (hm : m (ipKey ip) = none) :
    recordIpAttempt m t ip (ipKey ip) = some ⟨1, t⟩ := by
  simp [recordIpAttempt, hm]

/-- `recordIpAttempt` inside a live window increments the count. -/
lemma recordIpAttempt_same_live {m : IpMap} {ip : String} {d : IpData} (t : Nat)
    (hm : m (ipKey ip) = some d) (hw : ¬ t - d.firstAttempt > IP_WINDOW_MS) :
    recordIpAttempt m t ip (ipKey ip) = some ⟨d.count + 1, d.firstAttempt⟩ := by
  simp [recordIpAttempt, hm, hw]

/-- `checkIpRateLimit` on a full bucket whose window has not elapsed. -/
lemma checkIpRateLimit_blocked {m : IpMap} {ip : String} {d : IpData} {now : Nat}
    (hm : m (ipKey ip) = some d) (hw : ¬ now - d.firstAttempt > IP_WINDOW_MS)
    (hc : d.count ≥ IP_MAX_ATTEMPTS) :
    checkIpRateLimit m now ip =
      ⟨false, some ((IP_WINDOW_MS - (now - d.firstAttempt) + 999) / 1000)⟩ := by
  simp [checkIpRateLimit, hm, hw, hc]

/-- C2: five failed attempts recorded for a fresh IP inside the 60-second
window fill its bucket to count 5 with the window anchored at the first
failure; and whenever an IP bucket has reached the maximum count and its
window has not yet elapsed, the next login attempt from that IP is rejected
by the IP guard with code IP_RATE_LIMIT and a strictly positive retryAfter,
with the state untouched, for every password and comparison function —
including the correct password. -/
theorem ip_guard_blocks_next_attempt :
    (∀ (m : IpMap) (ip : String) (t1 t2 t3 t4 t5 : Nat),
      m (ipKey ip) = none → t1 ≤ t2 → t2 ≤ t3 → t3 ≤ t4 → t4 ≤ t5 →
      t5 - t1 ≤ IP_WINDOW_MS →
      recordIpAttempt (recordIpAttempt (recordIpAttempt (recordIpAttempt
        (recordIpAttempt m t1 ip) t2 ip) t3 ip) t4 ip) t5 ip (ipKey ip) =
          some ⟨5, t1⟩) ∧
    (∀ (st : AuthState) (now : Nat) (ip : String) (d : IpData),
      st.loginAttempts (ipKey ip) = some d → IP_MAX_ATTEMPTS ≤ d.count →
      now - d.firstAttempt < IP_WINDOW_MS →
      0 < (IP_WINDOW_MS - (now - d.firstAttempt) + 999) / 1000 ∧
      ∀ (verify : String → String → Bool) (fid emailInput password : String)
        (ua : Option String),
        login verify now fid st emailInput password ip ua =
          (.ipRateLimit ((IP_WINDOW_MS - (now - d.firstAttempt) + 999) / 1000), st)) := by
  constructor
  · intro m ip t1 t2 t3 t4 t5 hm h12 h23 h34 h45 hw
    have e1 := recordIpAttempt_same_none t1 hm
    have e2 := recordIpAttempt_same_live t2 e1
      (by simp only [IP_WINDOW_MS] at hw ⊢; omega)
    have e3 := recordIpAttempt_same_live t3 e2
      (by simp only [IP_WINDOW_MS] at hw ⊢; omega)
    have e4 := recordIpAttempt_same_live t4 e3
      (by simp only [IP_WINDOW_MS] at hw ⊢; omega)
    have e5 := recordIpAttempt_same_live t5 e4
      (by simp only [IP_WINDOW_MS] at hw ⊢; omega)
    exact e5
  · intro st now ip d hm hcount hw
    have hcheck := checkIpRateLimit_blocked hm (Nat.not_lt.mpr (Nat.le_of_lt hw))
      hcount
    refine ⟨by simp only [IP_WINDOW_MS] at hw ⊢; omega, ?_⟩
    intro verify fid emailInput password ua
    simp [login, hcheck]

/-- Witness for C2: recording five failures for a fresh IP at t = 1000000
fills its bucket, and with that bucket the sixth attempt at t = 1030000 is
rejected with retryAfter 30 even though the password supplied is correct. -/
theorem ip_guard_blocks_next_attempt_witness :
    recordIpAttempt (recordIpAttempt (recordIpAttempt (recordIpAttempt
      (recordIpAttempt emptyIp 1000000 ("9.9.9.9")) 1000000 ("9.9.9.9"))
        1000000 ("9.9.9.9")) 1000000 ("9.9.9.9")) 1000000 ("9.9.9.9")
      (ipKey ("9.9.9.9")) = some ⟨5, 1000000⟩ ∧
    (0 < 30 ∧
      login eqCheck 1030000 ("cid") stIpBlocked ("a@x.com") ("H1") ("9.9.9.9") none =
        (.ipRateLimit 30, stIpBlocked)) := by
  constructor
  · exact (ip_guard_blocks_next_attempt.1 emptyIp ("9.9.9.9") 1000000 1000000
      1000000 1000000 1000000 rfl (by omega) (by omega) (by omega) (by omega)
      (by decide))
  · have h := ip_guard_blocks_next_attempt.2 stIpBlocked 1030000 ("9.9.9.9")
      ⟨5, 1000000⟩ rfl (by decide) (by decide)
    exact ⟨h.1, h.2 eqCheck ("cid") ("a@x.com") ("H1") none⟩

/-- `checkAccountLockout` on an account whose `lockedUntil` lies in the
future. -/
lemma checkAccountLockout_locked {users : List User} {email : String} {u : User}
    {T now : Nat} (hu : findUserByEmail users email = some u)
    (hl : u.lockedUntil = some T) (hT : now < T) :
    checkAccountLockout users now email = ⟨true, some ((T - now + 59999) / 60000)⟩ := by
  simp [checkAccountLockout, hu, hl, hT]

/-- Every user with the targeted email carries the written lockout value
after `setLockoutByEmail`. -/
lemma setLockoutByEmail_mem {users : List User} {email : String} {t : Option Nat} :
    ∀ v ∈ setLockoutByEmail users email t, v.email = email → v.lockedUntil = t := by
  intro v hv he
  simp only [setLockoutByEmail, List.mem_map] at hv
  obtain ⟨w, _, hveq⟩ := hv
  by_cases h : w.email = email
  · rw [← hveq]; simp [h]
  · rw [← hveq] at he; simp [h] at he

/-- C3: a failed attempt that brings the email's failure count inside the
rolling 1-hour window to the lockout threshold (10) sets the account's
lockout-expiry to now + 15 minutes and answers 423 ACCOUNT_LOCKED; and while
`lockedUntil` is set and in the future, every attempt for that email
(passing the IP guard in front of it) is rejected with the positive number
of remaining lockout minutes, for every password and comparison function,
with the state untouched. -/
theorem lockout_set_and_enforced :
    (∀ (st : AuthState) (now : Nat) (fid emailInput password ip : String)
      (ua : Option String) (verify : String → String → Bool) (u : User),
      (checkIpRateLimit st.loginAttempts now ip).allowed = true →
      (checkAccountLockout st.users now (normEmail emailInput)).locked = false →
      checkEmailRateLimit st.ledger now (normEmail emailInput) = true →
      findUserByEmail st.users (normEmail emailInput) = some u →
      verify password u.passwordHash = false →
      LOCKOUT_THRESHOLD ≤ countRecentFailures
        (st.ledger ++ [⟨normEmail emailInput, ip, ua, false, some u.id, now⟩])
        (normEmail emailInput) (now - EMAIL_WINDOW_MS) →
      login verify now fid st emailInput password ip ua =
        (.accountLocked (LOCKOUT_DURATION_MS / 1000),
          { st with
            loginAttempts := recordIpAttempt st.loginAttempts now ip,
            users := setLockoutByEmail st.users (normEmail emailInput)
              (some (now + LOCKOUT_DURATION_MS)),
            ledger := st.ledger ++
              [⟨normEmail emailInput, ip, ua, false, some u.id, now⟩] }) ∧
      (∀ v ∈ (login verify now fid st emailInput password ip ua).2.users,
        v.email = normEmail emailInput →
        v.lockedUntil = some (now + LOCKOUT_DURATION_MS)) ∧
      (login verify now fid st emailInput password ip ua).1.status = 423) ∧
    (∀ (st : AuthState) (now : Nat) (fid emailInput password ip : String)
      (ua : Option String) (verify : String → String → Bool) (u : User) (T : Nat),
      (checkIpRateLimit st.loginAttempts now ip).allowed = true →
      findUserByEmail st.users (normEmail emailInput) = some u →
      u.lockedUntil = some T → now < T →
      0 < (T - now + 59999) / 60000 ∧
      login verify now fid st emailInput password ip ua =
        (.accountLocked (((T - now + 59999) / 60000) * 60), st)) := by
  constructor
  · intro st now fid emailInput password ip ua verify u hip hlo hem hu hv hcount
    have hrec : recordLoginAttempt now st.users st.ledger (normEmail emailInput) ip
        ua false (some u.id) =
        ⟨true, setLockoutByEmail st.users (normEmail emailInput)
          (some (now + LOCKOUT_DURATION_MS)),
          st.ledger ++ [⟨normEmail emailInput, ip, ua, false, some u.id, now⟩]⟩ := by
      simp [recordLoginAttempt, hcount]
    have e : login verify now fid st emailInput password ip ua =
        (.accountLocked (LOCKOUT_DURATION_MS / 1000),
          { st with
            loginAttempts := recordIpAttempt st.loginAttempts now ip,
            users := setLockoutByEmail st.users (normEmail emailInput)
              (some (now + LOCKOUT_DURATION_MS)),
            ledger := st.ledger ++
              [⟨normEmail emailInput, ip, ua, false, some u.id, now⟩] }) := by
      simp [login, hip, hlo, hem, hu, hv, hrec]
    refine ⟨e, ?_, by rw [e]; rfl⟩
    rw [e]
    exact setLockoutByEmail_mem
  · intro st now fid emailInput password ip ua verify u T hip hu hl hT
    have hlock := checkAccountLockout_locked hu hl hT
    refine ⟨by omega, ?_⟩
    simp [login, hip, hlock]

/-- Witness for C3: alice's tenth recent failure answers 423 with
retryAfter 900 and sets her lockout; while locked until t = 2000000, a login
at t = 1000000 is rejected with 17 remaining minutes (retryAfter 1020). -/
theorem lockout_set_and_enforced_witness :
    (login eqCheck 1000000 ("cid") stNineFailures ("a@x.com") ("bad")
      ("9.9.9.9") none).1 = .accountLocked 900 ∧
    login eqCheck 1000000 ("cid") stLocked ("a@x.com") ("bad") ("9.9.9.9") none =
      (.accountLocked 1020, stLocked) := by
  constructor
  · have h := lockout_set_and_enforced.1 stNineFailures 1000000 ("cid")
      ("a@x.com") ("bad") ("9.9.9.9") none eqCheck alice (by decide) (by decide)
      (by decide) (by decide) (by decide) (by decide)
    rw [h.1]; rfl
  · have h := lockout_set_and_enforced.2 stLocked 1000000 ("cid") ("a@x.com")
      ("bad") ("9.9.9.9") none eqCheck { alice with lockedUntil := some 2000000 }
      2000000 (by decide) (by decide) (by decide) (by decide)
    exact h.2

/-- C4: for an account with TOTP enabled and a stored secret, a login with
the correct password never issues a session at that step: the route creates
a login challenge whose expiry is its creation time plus the fixed
120-second window, responds with the challenge id and expiry, does not set
the session cookie, and the result is not a session success for any user. -/
theorem totp_login_yields_challenge_not_session
    (st : AuthState) (now : Nat) (fid emailInput password ip : String)
    (ua : Option String) (verify : String → String → Bool) (u : User) (s : String)
    (hip : (checkIpRateLimit st.loginAttempts now ip).allowed = true)
    (hlo : (checkAccountLockout st.users now (normEmail emailInput)).locked = false)
    (hem : checkEmailRateLimit st.ledger now (normEmail emailInput) = true)
    (hu : findUserByEmail st.users (normEmail emailInput) = some u)
    (hv : verify password u.passwordHash = true)
    (ht : u.totpEnabled = true) (hs : u.totpSecret = some s) :
    login verify now fid st emailInput password ip ua =
      (.totpRequired fid (now + 2 * 60 * 1000) u.id,
        { st with
          loginAttempts := clearIpAttempts st.loginAttempts ip,
          challenges := (st.challenges.filter (fun c =>
            !(c.userId == u.id && (decide (c.expiresAt < now) || !c.usedAt.isNone)))) ++
            [⟨fid, u.id, now + 2 * 60 * 1000, none⟩] }) ∧
    (login verify now fid st emailInput password ip ua).1.setsSessionCookie = false ∧
    ∀ uid, (login verify now fid st emailInput password ip ua).1 ≠ .success uid := by
  have e : login verify now fid st emailInput password ip ua =
      (.totpRequired fid (now + 2 * 60 * 1000) u.id,
        { st with
          loginAttempts := clearIpAttempts st.loginAttempts ip,
          challenges := (st.challenges.filter (fun c =>
            !(c.userId == u.id && (decide (c.expiresAt < now) || !c.usedAt.isNone)))) ++
            [⟨fid, u.id, now + 2 * 60 * 1000, none⟩] }) := by
    simp [login, hip, hlo, hem, hu, hv, ht, hs]
  refine ⟨e, by rw [e]; rfl, by rw [e]; intro uid; simp⟩

/-- Witness for C4: the TOTP account logging in with the correct password at
t = 1000000 receives challenge `c9` expiring at t = 1120000 and no session
cookie. -/
theorem totp_login_yields_challenge_not_session_witness :
    (login eqCheck 1000000 ("c9") stTotp ("a@x.com") ("H1") ("9.9.9.9") none).1 =
      .totpRequired ("c9") 1120000 ("u1") ∧
    (login eqCheck 1000000 ("c9") stTotp ("a@x.com") ("H1") ("9.9.9.9") none).1.setsSessionCookie
      = false := by
  have h := totp_login_yields_challenge_not_session stTotp 1000000 ("c9")
    ("a@x.com") ("H1") ("9.9.9.9") none eqCheck aliceTotp ("S1") (by decide)
    (by decide) (by decide) (by decide) (by decide) (by decide) (by decide)
  exact ⟨by rw [h.1]; rfl, h.2.1⟩

/-- `find?` by challenge id commutes with mapping an id-preserving update
over the table. -/
lemma find_map_preserving {l : List LoginChallenge}
    {g : LoginChallenge → LoginChallenge} (hg : ∀ c, (g c).id = c.id)
    {cid : String} {ch : LoginChallenge}
    (h : l.find? (fun c => c.id == cid) = some ch) :
    (l.map g).find? (fun c => c.id == cid) = some (g ch) := by
  induction l with
  | nil => simp at h
  | cons a l ih =>
    by_cases hc : (a.id == cid) = true
    · rw [@List.find?_cons_of_pos _ (fun c => c.id == cid) a l hc] at h
      have hac := Option.some.inj h
      subst hac
      rw [List.map_cons,
        @List.find?_cons_of_pos _ (fun c => c.id == cid) (g a) (l.map g)
          (by simpa [hg] using hc)]
    · rw [@List.find?_cons_of_neg _ (fun c => c.id == cid) a l hc] at h
      rw [List.map_cons,
        @List.find?_cons_of_neg _ (fun c => c.id == cid) (g a) (l.map g)
          (by simpa [hg] using hc)]
      exact ih h

/-- Any verification against a challenge whose `usedAt` is set answers the
already-used error and leaves the state untouched. -/
lemma verifyTotp_already_used {tc : String → String → Bool} {now : Nat}
    {st : AuthState} {cid code ip : String} {ua : Option String}
    {ch : LoginChallenge}
    (hfind : st.challenges.find? (fun c => c.id == cid) = some ch)
    (hused : ch.usedAt.isNone = false) :
    verifyTotp tc now st cid code ip ua = (.challengeAlreadyUsed, st) := by
  simp [verifyTotp, totpReadPhase, totpApply, hfind, hused]

/-- C5: a verification attempt against an already-consumed challenge fails
with the already-used error whatever the code, one against an expired
challenge fails whatever the code, and a successful verification marks the
challenge consumed so that a second verification with the same id — with any
code, at any later time — fails with the already-used error and issues no
session: the unconsumed-to-consumed transition happens exactly once. -/
theorem challenge_single_use :
    (∀ (tc : String → String → Bool) (now : Nat) (st : AuthState)
      (cid code ip : String) (ua : Option String) (ch : LoginChallenge),
      st.challenges.find? (fun c => c.id == cid) = some ch →
      ch.usedAt.isNone = false →
      verifyTotp tc now st cid code ip ua = (.challengeAlreadyUsed, st)) ∧
    (∀ (tc : String → String → Bool) (now : Nat) (st : AuthState)
      (cid code ip : String) (ua : Option String) (ch : LoginChallenge),
      st.challenges.find? (fun c => c.id == cid) = some ch →
      ch.usedAt = none → ch.expiresAt ≤ now →
      verifyTotp tc now st cid code ip ua = (.challengeExpired, st)) ∧
    (∀ (tc : String → String → Bool) (now : Nat) (st : AuthState)
      (cid code ip : String) (ua : Option String) (ch : LoginChallenge)
      (u : User) (s : String),
      st.challenges.find? (fun c => c.id == cid) = some ch →
      ch.usedAt = none → now < ch.expiresAt →
      findUserById st.users ch.userId = some u →
      u.totpEnabled = true → u.totpSecret = some s → tc code s = true →
      (verifyTotp tc now st cid code ip ua).1 = .success u.id ∧
      (verifyTotp tc now st cid code ip ua).2.challenges.find?
        (fun c => c.id == cid) = some { ch with usedAt := some now } ∧
      (∀ (tc2 : String → String → Bool) (now2 : Nat) (code2 ip2 : String)
        (ua2 : Option String),
        verifyTotp tc2 now2 (verifyTotp tc now st cid code ip ua).2 cid code2
          ip2 ua2 =
          (.challengeAlreadyUsed, (verifyTotp tc now st cid code ip ua).2))) := by
  refine ⟨?_, ?_, ?_⟩
  · intro tc now st cid code ip ua ch hfind hused
    exact verifyTotp_already_used hfind hused
  · intro tc now st cid code ip ua ch hfind hun hexp
    simp [verifyTotp, totpReadPhase, totpApply, hfind, hun, hexp]
  · intro tc now st cid code ip ua ch u s hfind hun hfut huser ht hs hcode
    have hexp' : ¬ ch.expiresAt ≤ now := Nat.not_le.mpr hfut
    have hread : totpReadPhase tc now st cid code = .proceed ch u := by
      simp [totpReadPhase, hfind, hun, hexp', huser, ht, hs, hcode]
    have e : verifyTotp tc now st cid code ip ua = totpConsume now st ch u ip ua := by
      simp [verifyTotp, totpApply, hread]
    have hg : ∀ c : LoginChallenge,
        ((fun c : LoginChallenge =>
          if c.id = ch.id then { c with usedAt := some now } else c) c).id =
          c.id := by
      intro c
      by_cases h : c.id = ch.id <;> simp [h]
    have hfind2 : (verifyTotp tc now st cid code ip ua).2.challenges.find?
        (fun c => c.id == cid) = some { ch with usedAt := some now } := by
      rw [e]
      have hm := find_map_preserving hg hfind
      simpa [totpConsume] using hm
    refine ⟨by rw [e]; simp [totpConsume], hfind2, ?_⟩
    intro tc2 now2 code2 ip2 ua2
    exact verifyTotp_already_used hfind2 rfl

/-- Witness for C5: verifying challenge `c1` with the correct code succeeds,
and re-verifying the same id afterwards — again with the correct code —
fails with the already-used error; verifying it after its expiry fails
too. -/
theorem challenge_single_use_witness :
    (verifyTotp eqCheck 1050000 stChal ("c1") ("S1") ("9.9.9.9") none).1 =
      .success ("u1") ∧
    verifyTotp eqCheck 1051000 stChalUsed ("c1") ("S1") ("8.8.8.8") none =
      (.challengeAlreadyUsed, stChalUsed) ∧
    verifyTotp eqCheck 1200000 stChal ("c1") ("S1") ("9.9.9.9") none =
      (.challengeExpired, stChal) := by
  have h := challenge_single_use.2.2 eqCheck 1050000 stChal ("c1") ("S1")
    ("9.9.9.9") none chal aliceTotp ("S1") (by decide) (by decide) (by decide)
    (by decide) (by decide) (by decide) (by decide)
  have hexp := challenge_single_use.2.1 eqCheck 1200000 stChal ("c1") ("S1")
    ("9.9.9.9") none chal (by decide) (by decide) (by decide)
  exact ⟨h.1, h.2.2 eqCheck 1051000 ("S1") ("8.8.8.8") none, hexp⟩

/-- C6: challenge consumption is NOT an atomic check-and-set: the handler
marks the challenge used with an unconditional update keyed only on the id,
after a separate read.  Under two concurrent verification calls for the same
challenge id whose read phases both run before either write phase — the
interleaving `verifyTotpRace` — both calls read the challenge as unconsumed,
both mark it consumed, and both issue a session, contradicting the required
must-not-be-independently-consumable property. -/
theorem challenge_consumption_not_atomic :
    (verifyTotpRace eqCheck 1050000 stChal ("c1") ("S1") ("1.1.1.1") ("2.2.2.2")
      none none).1 = .success ("u1") ∧
    (verifyTotpRace eqCheck 1050000 stChal ("c1") ("S1") ("1.1.1.1") ("2.2.2.2")
      none none).2.1 = .success ("u1") := by
  exact ⟨rfl, rfl⟩

/-- After clearing the lockout by email and bumping `lastLoginAt`, every
user row carrying that email has no lockout left. -/
lemma cleared_users_lockout_none {users : List User} {email id : String}
    {t : Nat} :
    ∀ v ∈ updateLastLogin (clearLockoutByEmail users email) id t,
      v.email = email → v.lockedUntil = none := by
  intro v hv he
  simp only [updateLastLogin, List.mem_map] at hv
  obtain ⟨w, hw, hveq⟩ := hv
  simp only [clearLockoutByEmail, List.mem_map] at hw
  obtain ⟨x, _, hweq⟩ := hw
  have hvl : v.lockedUntil = w.lockedUntil := by
    rw [← hveq]; by_cases h : w.id = id <;> simp [h]
  have hve : v.email = w.email := by
    rw [← hveq]; by_cases h : w.id = id <;> simp [h]
  by_cases hcond : x.email = email ∧ x.lockedUntil ≠ none
  · rw [hvl, ← hweq]; simp [hcond]
  · have hwx : w = x := by rw [← hweq]; simp [hcond]
    rw [hvl, hwx]
    rw [hve, hwx] at he
    rcases Decidable.not_and_iff_or_not.mp hcond with h | h
    · exact absurd he h
    · exact Decidable.not_not.mp h

/-- C7 (amended): a successful TOTP-less login answers success, clears the
account's lockout-expiry, empties exactly the caller's IP bucket — every
other key of the in-memory map is unchanged — and leaves the durable ledger
intact except for appending the one success row (the source appends every
outcome to the ledger, so the ledger does not stay literally unchanged);
the challenge table is untouched. -/
theorem successful_login_clears_lockout_and_own_ip_bucket
    (st : AuthState) (now : Nat) (fid emailInput password ip : String)
    (ua : Option String) (verify : String → String → Bool) (u : User)
    (hip : (checkIpRateLimit st.loginAttempts now ip).allowed = true)
    (hlo : (checkAccountLockout st.users now (normEmail emailInput)).locked = false)
    (hem : checkEmailRateLimit st.ledger now (normEmail emailInput) = true)
    (hu : findUserByEmail st.users (normEmail emailInput) = some u)
    (hv : verify password u.passwordHash = true)
    (htoff : (!u.totpEnabled || u.totpSecret.isNone) = true) :
    (login verify now fid st emailInput password ip ua).1 = .success u.id ∧
    (login verify now fid st emailInput password ip ua).2.loginAttempts
      (ipKey ip) = none ∧
    (∀ k, k ≠ ipKey ip →
      (login verify now fid st emailInput password ip ua).2.loginAttempts k =
        st.loginAttempts k) ∧
    (∀ v ∈ (login verify now fid st emailInput password ip ua).2.users,
      v.email = normEmail emailInput → v.lockedUntil = none) ∧
    (login verify now fid st emailInput password ip ua).2.ledger =
      st.ledger ++ [⟨normEmail emailInput, ip, ua, true, some u.id, now⟩] ∧
    (login verify now fid st emailInput password ip ua).2.challenges =
      st.challenges := by
  have e : login verify now fid st emailInput password ip ua =
      (.success u.id,
        { st with
          loginAttempts := clearIpAttempts st.loginAttempts ip,
          users := updateLastLogin
            (clearLockoutByEmail st.users (normEmail emailInput)) u.id now,
          ledger := st.ledger ++
            [⟨normEmail emailInput, ip, ua, true, some u.id, now⟩] }) := by
    simp [login, hip, hlo, hem, hu, hv, htoff, recordLoginAttempt]
  refine ⟨by rw [e], by rw [e]; simp [clearIpAttempts], ?_, ?_, by rw [e], by rw [e]⟩
  · intro k hk
    rw [e]; simp [clearIpAttempts, hk]
  · rw [e]
    exact cleared_users_lockout_none

/-- Counterexample for C7 as stated: the successful login appends its success
row to the attempt ledger, so the ledger is not unchanged. -/
theorem successful_login_appends_ledger_row :
    (login eqCheck 1000000 ("cid") stPlain ("a@x.com") ("H1") ("9.9.9.9")
      none).1 = .success ("u1") ∧
    (login eqCheck 1000000 ("cid") stPlain ("a@x.com") ("H1") ("9.9.9.9")
      none).2.ledger ≠ stPlain.ledger := by
  exact ⟨rfl, by decide⟩

/-- Witness for C7 (amended): logging in successfully from 9.9.9.9 clears
that bucket, leaves 7.7.7.7's bucket as it was, clears the stale lockout,
and appends exactly the success row to the ledger. -/
theorem successful_login_clears_lockout_and_own_ip_bucket_witness :
    (login eqCheck 1000000 ("cid") stExpiredLock ("a@x.com") ("H1") ("9.9.9.9")
      none).1 = .success ("u1") ∧
    (login eqCheck 1000000 ("cid") stExpiredLock ("a@x.com") ("H1") ("9.9.9.9")
      none).2.loginAttempts (ipKey ("9.9.9.9")) = none ∧
    (login eqCheck 1000000 ("cid") stExpiredLock ("a@x.com") ("H1") ("9.9.9.9")
      none).2.loginAttempts (ipKey ("7.7.7.7")) = some ⟨2, 999500⟩ ∧
    (∀ v ∈ (login eqCheck 1000000 ("cid") stExpiredLock ("a@x.com") ("H1")
      ("9.9.9.9") none).2.users, v.email = normEmail ("a@x.com") →
      v.lockedUntil = none) := by
  have h := successful_login_clears_lockout_and_own_ip_bucket stExpiredLock
    1000000 ("cid") ("a@x.com") ("H1") ("9.9.9.9") none eqCheck
    { alice with lockedUntil := some 500 } (by decide) (by decide) (by decide)
    (by decide) (by decide) (by decide)
  refine ⟨h.1, h.2.1, ?_, h.2.2.2.1⟩
  exact (h.2.2.1 (ipKey ("7.7.7.7")) (by decide)).trans (by decide)

/-- C8 (amended): once the guards pass, a login failing credential
verification yields the same generic invalid-credentials response whether
the email does not exist or the password is wrong for an existing account —
except when the recorded failure brings the account's failure count to the
lockout threshold, in which case the existing account answers 423
ACCOUNT_LOCKED instead; below the threshold the two cases are
indistinguishable to the caller. -/
theorem failed_credentials_generic_response :
    (∀ (st : AuthState) (now : Nat) (fid emailInput password ip : String)
      (ua : Option String) (verify : String → String → Bool),
      (checkIpRateLimit st.loginAttempts now ip).allowed = true →
      (checkAccountLockout st.users now (normEmail emailInput)).locked = false →
      checkEmailRateLimit st.ledger now (normEmail emailInput) = true →
      findUserByEmail st.users (normEmail emailInput) = none →
      (login verify now fid st emailInput password ip ua).1 =
        .invalidCredentials) ∧
    (∀ (st : AuthState) (now : Nat) (fid emailInput password ip : String)
      (ua : Option String) (verify : String → String → Bool) (u : User),
      (checkIpRateLimit st.loginAttempts now ip).allowed = true →
      (checkAccountLockout st.users now (normEmail emailInput)).locked = false →
      checkEmailRateLimit st.ledger now (normEmail emailInput) = true →
      findUserByEmail st.users (normEmail emailInput) = some u →
      verify password u.passwordHash = false →
      countRecentFailures
        (st.ledger ++ [⟨normEmail emailInput, ip, ua, false, some u.id, now⟩])
        (normEmail emailInput) (now - EMAIL_WINDOW_MS) < LOCKOUT_THRESHOLD →
      (login verify now fid st emailInput password ip ua).1 =
        .invalidCredentials) := by
  constructor
  · intro st now fid emailInput password ip ua verify hip hlo hem hu
    simp [login, hip, hlo, hem, hu]
  · intro st now fid emailInput password ip ua verify u hip hlo hem hu hv hcount
    have hrec : recordLoginAttempt now st.users st.ledger (normEmail emailInput)
        ip ua false (some u.id) =
        ⟨false, st.users,
          st.ledger ++ [⟨normEmail emailInput, ip, ua, false, some u.id, now⟩]⟩ := by
      simp [recordLoginAttempt, Nat.not_le.mpr hcount]
    simp [login, hip, hlo, hem, hu, hv, hrec]

/-- Counterexample for C8 as stated: with nine recent failures on each
email, the tenth failing attempt for the existing account answers 423
ACCOUNT_LOCKED while the same attempt against the non-existent email still
answers the generic 401 — the two responses differ, so the cases are
distinguishable on the lockout-triggering attempt. -/
theorem lockout_trigger_distinguishes_responses :
    (login eqCheck 1000000 ("cid") stNineFailures ("a@x.com") ("bad")
      ("9.9.9.9") none).1 = .accountLocked 900 ∧
    (login eqCheck 1000000 ("cid") stNineFailures ("b@x.com") ("bad")
      ("9.9.9.9") none).1 = .invalidCredentials ∧
    (login eqCheck 1000000 ("cid") stNineFailures ("a@x.com") ("bad")
      ("9.9.9.9") none).1 ≠
      (login eqCheck 1000000 ("cid") stNineFailures ("b@x.com") ("bad")
        ("9.9.9.9") none).1 := by
  exact ⟨by decide, by decide, by decide⟩

/-- Witness for C8 (amended): below the threshold, the unknown email
`b@x.com` and a wrong password for the existing `a@x.com` both answer the
same generic invalid-credentials response. -/
theorem failed_credentials_generic_response_witness :
    (login eqCheck 1000000 ("cid") stPlain ("b@x.com") ("pw") ("9.9.9.9")
      none).1 = .invalidCredentials ∧
    (login eqCheck 1000000 ("cid") stPlain ("a@x.com") ("bad") ("9.9.9.9")
      none).1 = .invalidCredentials := by
  refine ⟨?_, ?_⟩
  · exact failed_credentials_generic_response.1 stPlain 1000000 ("cid")
      ("b@x.com") ("pw") ("9.9.9.9") none eqCheck (by decide) (by decide)
      (by decide) (by decide)
  · exact failed_credentials_generic_response.2 stPlain 1000000 ("cid")
      ("a@x.com") ("bad") ("9.9.9.9") none eqCheck alice (by decide) (by decide)
      (by decide) (by decide) (by decide) (by decide)

/-- C9: the Auth Gate takes the bearer credential from a `Bearer `-prefixed
authorization header when present, otherwise from the `eco_token` cookie;
verification rejects a token whose signature does not match or whose expiry
has passed; in required mode an absent or invalid credential (or one with no
subject) answers unauthorized and the request does not proceed, while in
optional mode it proceeds with no identity; a valid credential resolves its
subject in both modes. -/
theorem auth_gate_extraction_and_modes :
    (∀ (req : HttpRequest) (h : String), req.authorizationHeader = some h →
      strStartsWith h ("Bearer ") = true →
      getTokenFromRequest req = some (strDrop h 7)) ∧
    (∀ req : HttpRequest, req.authorizationHeader = none →
      getTokenFromRequest req = getCookieValue req.cookieHeader ("eco_token")) ∧
    (∀ (req : HttpRequest) (h : String), req.authorizationHeader = some h →
      strStartsWith h ("Bearer ") = false →
      getTokenFromRequest req = getCookieValue req.cookieHeader ("eco_token")) ∧
    (∀ (jv : String → Option JwtPayload) (req : HttpRequest),
      getTokenFromRequest req = none →
      requireAuth jv req = .unauthorized ∧ optionalAuth jv req = .proceed none) ∧
    (∀ (jv : String → Option JwtPayload) (req : HttpRequest) (tok : String),
      getTokenFromRequest req = some tok → jv tok = none →
      requireAuth jv req = .unauthorized ∧ optionalAuth jv req = .proceed none) ∧
    (∀ (jv : String → Option JwtPayload) (req : HttpRequest) (tok uid : String),
      getTokenFromRequest req = some tok → jv tok = some ⟨some uid⟩ →
      requireAuth jv req = .proceed (some uid) ∧
      optionalAuth jv req = .proceed (some uid)) ∧
    (∀ (macOf : Option String → Nat → String)
      (decodeTok : String → Option SignedToken) (now : Nat) (tok : String)
      (t : SignedToken), decodeTok tok = some t →
      (t.sig ≠ macOf t.sub t.expiresAt ∨ t.expiresAt ≤ now) →
      jwtVerify macOf decodeTok now tok = none) ∧
    (∀ (macOf : Option String → Nat → String)
      (decodeTok : String → Option SignedToken) (now : Nat) (tok : String)
      (t : SignedToken), decodeTok tok = some t →
      t.sig = macOf t.sub t.expiresAt → now < t.expiresAt →
      jwtVerify macOf decodeTok now tok = some ⟨t.sub⟩) := by
  refine ⟨?_, ?_, ?_, ?_, ?_, ?_, ?_, ?_⟩
  · intro req h hh hb
    simp [getTokenFromRequest, hh, hb]
  · intro req hh
    simp [getTokenFromRequest, hh]
  · intro req h hh hb
    simp [getTokenFromRequest, hh, hb]
  · intro jv req htok
    exact ⟨by simp [requireAuth, htok], by simp [optionalAuth, htok]⟩
  · intro jv req tok htok hjv
    exact ⟨by simp [requireAuth, htok, hjv], by simp [optionalAuth, htok, hjv]⟩
  · intro jv req tok uid htok hjv
    exact ⟨by simp [requireAuth, htok, hjv], by simp [optionalAuth, htok, hjv]⟩
  · intro macOf decodeTok now tok t hdec hbad
    simp only [jwtVerify, hdec]
    rw [if_neg]
    rintro ⟨hsig, hexp⟩
    rcases hbad with h | h
    · exact h hsig
    · omega
  · intro macOf decodeTok now tok t hdec hsig hexp
    simp only [jwtVerify, hdec]
    rw [if_pos ⟨hsig, hexp⟩]

/-- Witness for C9: with a `Bearer goodtok` header the gate uses the header
token rather than the cookie, required mode resolves u1, and with no
credential at all required mode answers unauthorized while optional mode
proceeds unauthenticated. -/
theorem auth_gate_extraction_and_modes_witness :
    getTokenFromRequest reqBoth = some ("goodtok") ∧
    requireAuth (jwtVerify macOfC decodeTokC 1000000) reqBoth =
      .proceed (some ("u1")) ∧
    requireAuth (jwtVerify macOfC decodeTokC 1000000) reqBare = .unauthorized ∧
    optionalAuth (jwtVerify macOfC decodeTokC 1000000) reqBare =
      .proceed none := by
  have h1 := auth_gate_extraction_and_modes.1 reqBoth ("Bearer goodtok") rfl
    (by decide)
  have h6 := auth_gate_extraction_and_modes.2.2.2.2.2.1
    (jwtVerify macOfC decodeTokC 1000000) reqBoth ("goodtok") ("u1")
    (by exact h1) (by decide)
  have h4 := auth_gate_extraction_and_modes.2.2.2.1
    (jwtVerify macOfC decodeTokC 1000000) reqBare rfl
  exact ⟨h1, h6.1, h4.1, h4.2⟩

/-- C10: the second-factor verification route runs none of the three login
guards.  For an unconsumed, unexpired challenge of a TOTP-enabled account, a
correct code consumes the challenge and issues a session even when the
account's lockout-expiry lies in the future and the caller's IP bucket is at
the IP guard's maximum failure count. -/
theorem totp_verify_skips_login_guards
    (tc : String → String → Bool) (now : Nat) (st : AuthState)
    (cid code ip : String) (ua : Option String) (ch : LoginChallenge) (u : User)
    (s : String) (d : IpData) (T : Nat)
    (hfind : st.challenges.find? (fun c => c.id == cid) = some ch)
    (hun : ch.usedAt = none) (hfut : now < ch.expiresAt)
    (huser : findUserById st.users ch.userId = some u)
    (ht : u.totpEnabled = true) (hs : u.totpSecret = some s)
    (hcode : tc code s = true)
    (hlock : u.lockedUntil = some T) (hT : now < T)
    (hip : st.loginAttempts (ipKey ip) = some d)
    (hd : IP_MAX_ATTEMPTS ≤ d.count) :
    (verifyTotp tc now st cid code ip ua).1 = .success u.id ∧
    (verifyTotp tc now st cid code ip ua).2.challenges.find?
      (fun c => c.id == cid) = some { ch with usedAt := some now } := by
  have hexp' : ¬ ch.expiresAt ≤ now := Nat.not_le.mpr hfut
  have hread : totpReadPhase tc now st cid code = .proceed ch u := by
    simp [totpReadPhase, hfind, hun, hexp', huser, ht, hs, hcode]
  have e : verifyTotp tc now st cid code ip ua = totpConsume now st ch u ip ua := by
    simp [verifyTotp, totpApply, hread]
  have hg : ∀ c : LoginChallenge,
      ((fun c : LoginChallenge =>
        if c.id = ch.id then { c with usedAt := some now } else c) c).id =
        c.id := by
    intro c
    by_cases h : c.id = ch.id <;> simp [h]
  refine ⟨by rw [e]; simp [totpConsume], ?_⟩
  rw [e]
  have hm := find_map_preserving hg hfind
  simpa [totpConsume] using hm

/-- Witness for C10: with alice locked until t = 2000000 and the caller's IP
bucket full at 5 failures, the correct code at t = 1050000 still verifies
challenge `c1`, consumes it and issues the session. -/
theorem totp_verify_skips_login_guards_witness :
    (verifyTotp eqCheck 1050000 stChalGuarded ("c1") ("S1") ("9.9.9.9")
      none).1 = .success ("u1") ∧
    (verifyTotp eqCheck 1050000 stChalGuarded ("c1") ("S1") ("9.9.9.9")
      none).2.challenges.find? (fun c => c.id == ("c1")) =
      some { chal with usedAt := some 1050000 } := by
  have h := totp_verify_skips_login_guards eqCheck 1050000 stChalGuarded ("c1")
    ("S1") ("9.9.9.9") none chal aliceTotpLocked ("S1") ⟨5, 1000000⟩ 2000000
    (by decide) (by decide) (by decide) (by decide) (by decide) (by decide)
    (by decide) (by decide) (by decide) (by decide) (by decide)
  exact h

end EcoAuth
